import Mathlib

set_option maxRecDepth 8000

/-!
# Verification of the cauliflower NAND-flash firmware core

Shallow embedding of the repository's Python sources (`src/nand.py`,
`src/main.py`, `src/driver_sim.py`, `src/driver_rp2.py`) and proofs about the
embedded definitions.  Python `int`s are embedded as `Nat` (all values that
occur are non-negative), `bytearray`s as `List Nat` (one entry per byte),
`None`-returning functions as `Option`, and raised exceptions as `Except`.
-/

namespace Cauliflower

/-! ## `nand.py`: `NandCmd`, `NandStatus`, `NandConfig` -/

namespace NandCmd

def READ_ID : Nat := 0x90
def READ_1ST : Nat := 0x00
def READ_2ND : Nat := 0x30
def ERASE_1ST : Nat := 0x60
def ERASE_2ND : Nat := 0xD0
def STATUS_READ : Nat := 0x70
def PROGRAM_1ST : Nat := 0x80
def PROGRAM_2ND : Nat := 0x10

end NandCmd

namespace NandConfig

def MAX_CS : Nat := 2

/-- `READ_ID_EXPECT = bytearray([0x98, 0xF1, 0x80, 0x15, 0x72])`. -/
def READ_ID_EXPECT : List Nat := [0x98, 0xF1, 0x80, 0x15, 0x72]

def PAGE_USABLE_BYTES : Nat := 2048
def PAGE_SPARE_BYTES : Nat := 128
def PAGE_ALL_BYTES : Nat := PAGE_USABLE_BYTES + PAGE_SPARE_BYTES
def PAGES_PER_BLOCK : Nat := 64
def BLOCKS_PER_CS : Nat := 1024
def SECTOR_BYTES : Nat := 512
def SECTOR_PER_PAGE : Nat := PAGE_USABLE_BYTES / SECTOR_BYTES

/-- `math.ceil(math.log2(SECTOR_PER_PAGE))` = 2. -/
def SECTOR_BITS : Nat := 2
/-- `math.ceil(math.log2(PAGES_PER_BLOCK))` = 6. -/
def PAGE_BITS : Nat := 6
/-- `math.ceil(math.log2(BLOCKS_PER_CS))` = 10. -/
def BLOCK_BITS : Nat := 10
/-- `math.ceil(math.log2(MAX_CS))` = 1. -/
def CS_BITS : Nat := 1

def SECTOR_MASK : Nat := (1 <<< SECTOR_BITS) - 1
def PAGE_MASK : Nat := (1 <<< PAGE_BITS) - 1
def BLOCK_MASK : Nat := (1 <<< BLOCK_BITS) - 1
def CS_MASK : Nat := (1 <<< CS_BITS) - 1

/-- `NandConfig.decode_phys_addr`: documented layout
`| chip[0] | block[9:0] | page[5:0] | sector[1:0] |`. -/
def decode_phys_addr (addr : Nat) : Nat × Nat × Nat × Nat :=
  let sector := addr &&& SECTOR_MASK
  let addr := addr >>> SECTOR_BITS
  let page := addr &&& PAGE_MASK
  let addr := addr >>> PAGE_BITS
  let block := addr &&& BLOCK_MASK
  let addr := addr >>> BLOCK_BITS
  let chip := addr &&& CS_MASK
  (chip, block, page, sector)

/-- `NandConfig.encode_phys_addr`.  The source shifts the accumulator by the
width of the field just inserted, not by the width of the next field:
`addr = chip & CS_MASK; addr <<= CS_BITS; addr |= block & BLOCK_MASK;
addr <<= BLOCK_BITS; addr |= page & PAGE_MASK; addr <<= PAGE_BITS;
addr |= sector & SECTOR_MASK`. -/
def encode_phys_addr (chip block page sector : Nat) : Nat :=
  let addr := chip &&& CS_MASK
  let addr := addr <<< CS_BITS
  let addr := addr ||| (block &&& BLOCK_MASK)
  let addr := addr <<< BLOCK_BITS
  let addr := addr ||| (page &&& PAGE_MASK)
  let addr := addr <<< PAGE_BITS
  let addr := addr ||| (sector &&& SECTOR_MASK)
  addr

/-- `NandConfig.create_nand_addr`: 4-byte column+row address. -/
def create_nand_addr (block page col : Nat) : List Nat :=
  [col &&& 0xFF,
   (col >>> 8) &&& 0xFF,
   ((block &&& 0x3) <<< 6) ||| (page &&& 0x3F),
   (block >>> 2) &&& 0xFF]

/-- `NandConfig.create_block_addr`: 2-byte block address. -/
def create_block_addr (block : Nat) : List Nat :=
  [block &&& 0xFF, (block >>> 8) &&& 0xFF]

end NandConfig

/-! ## `nand.py`: `PageCodec`

In the source every transform stage (scramble, ECC, CRC) is commented out
behind `TODO` markers: `encode` appends `PAGE_SPARE_BYTES` zero bytes to the
payload and `decode` strips the spare area and returns the usable area
unchanged, performing no integrity check. -/

structure PageCodec where
  scramble_seed : Nat := 0xA5
  use_scramble : Bool := true
  use_ecc : Bool := true
  use_crc : Bool := true

/-- `PageCodec.encode`: `return data + bytearray([0x00] * PAGE_SPARE_BYTES)`.
The scramble/ECC/CRC stages are `TODO` comments in the source; the flag
fields of the codec are never consulted.  (The Python `assert
len(data) == PAGE_USABLE_BYTES` is mirrored by hypotheses on theorems.) -/
def PageCodec.encode (_c : PageCodec) (data : List Nat) : List Nat :=
  data ++ List.replicate NandConfig.PAGE_SPARE_BYTES 0x00

/-- `PageCodec.decode`: `return data[:PAGE_USABLE_BYTES]`.  The CRC/ECC/
descramble stages are `TODO` comments in the source; no check is performed and
the `None` branch is never taken.  (The Python `assert
len(data) == PAGE_ALL_BYTES` is mirrored by hypotheses on theorems.) -/
def PageCodec.decode (_c : PageCodec) (data : List Nat) : Option (List Nat) :=
  some (data.take NandConfig.PAGE_USABLE_BYTES)

/-- Flip bit `bitIdx` of byte `byteIdx` of a byte string. -/
def flipBit (data : List Nat) (byteIdx bitIdx : Nat) : List Nat :=
  data.set byteIdx ((data.getD byteIdx 0) ^^^ (1 <<< bitIdx))

/-! Python writes `x &= ~(1 << block)` on arbitrary-precision non-negative
ints; `Nat` has no complement, so the and-not is embedded as
`x ^^^ (x &&& m)`, which clears in `x` exactly the bits set in `m`.  The
lemma `landNot_eq_ldiff` in the theorems part certifies that this is bitwise
set difference (`Nat.ldiff`). -/

def landNot (x m : Nat) : Nat := x ^^^ (x &&& m)

/-! ## Exceptions

Python exceptions raised by the embedded code.  `typeError` stands for the
`TypeError` the interpreter raises when a non-iterable is unpacked into a
tuple of targets.  `outOfFuel` is a model artifact: the `while True` loop of
`NandBlockManager.alloc` is embedded with explicit fuel (each iteration that
does not return marks one more block bad, so `MAX_CS * BLOCKS_PER_CS + 1`
iterations always suffice). -/

inductive PyErr where
  | valueError : String → PyErr
  | typeError : PyErr
  | outOfFuel : PyErr
deriving DecidableEq

/-! ## Command-layer interface

`NandBlockManager` receives a `nandcmd` object (duck-typed in Python:
`driver_sim.NandCommander` or `driver_rp2.NandCommander`).  It is embedded as
a record of state-passing functions over a driver-state type `σ`. -/

structure Commander (σ : Type) where
  read_id : σ → (cs_index : Nat) → (num_bytes : Nat) → List Nat × σ
  read_page : σ → (cs_index block page col num_bytes : Nat) → Option (List Nat) × σ
  read_status : σ → (cs_index : Nat) → Nat × σ
  erase_block : σ → (cs_index block : Nat) → Bool × σ
  program_page : σ → (cs_index block page : Nat) → (data : List Nat) → Bool × σ

/-! ## `driver_sim.py`: file-backed emulator

State: the backing directory of `cs.._block.._page...bin` files, embedded as a
map from `(chip, block, page)` to the file's bytes; `none` means the file does
not exist, in which case `_read_data` returns `PAGE_ALL_BYTES` of `0xFF`.
(`ram_cache` is off by default and `base_dir` is set, as in
`FlashTranslationLayer.__init__`; the `ValueError` range guards of
`_data_path` are not modelled — every access below stays in range.) -/

structure SimNand where
  num_chip : Nat
  flash : Nat × Nat × Nat → Option (List Nat)

def ffPage : List Nat := List.replicate NandConfig.PAGE_ALL_BYTES 0xFF

/-- `NandCommander._read_data` (file branch): missing file reads as all-`0xFF`. -/
def SimNand.readData (s : SimNand) (chip block page : Nat) : List Nat :=
  match s.flash (chip, block, page) with
  | some d => d
  | none => ffPage

/-- `NandCommander._write_data` (file branch): overwrite the addressed file. -/
def SimNand.writeData (s : SimNand) (chip block page : Nat) (data : List Nat) :
    SimNand :=
  { s with flash := fun k => if k = (chip, block, page) then some data else s.flash k }

/-- The method **bodies** of `driver_sim.NandCommander` (their behaviour when
entered, e.g. on a positional call):
* `read_id`: expected ID for `chip < num_chip`, zero bytes otherwise;
* `read_page`: whole stored page (`col`/`num_bytes` are ignored by the source);
* `read_status`: always `0x00`;
* `erase_block`: writes an all-`0xFF` page 0 only, returns `True`;
* `program_page`: overwrites the addressed page verbatim, returns `True`.

Caution: `NandBlockManager` never actually enters these bodies — it passes
the chip index as the keyword `cs_index=` while every `driver_sim` parameter
is named `chip_index`, so in the source each such call raises `TypeError`
first; `simCmdK` below embeds the emulator as reached through those keyword
calls.  `simCmd` is used only where no commander call is made at all. -/
def simCmd : Commander SimNand where
  read_id := fun s cs num_bytes =>
    (if cs < s.num_chip then NandConfig.READ_ID_EXPECT
     else List.replicate num_bytes 0x00, s)
  read_page := fun s cs block page _col _num_bytes =>
    (some (s.readData cs block page), s)
  read_status := fun s _cs => (0x00, s)
  erase_block := fun s cs block => (true, s.writeData cs block 0 ffPage)
  program_page := fun s cs block page data => (true, s.writeData cs block page data)

/-- Fresh emulator: one chip responding (the `driver_sim.NandCommander`
default `num_chip=1`), no page file written yet. -/
def simFresh : SimNand := { num_chip := 1, flash := fun _ => none }

/-! ## Exception-aware command-layer interface

A Python method call can raise before or instead of returning; commanders
whose calls may raise are embedded as `CommanderE`, each operation returning
`Except PyErr`.  (`Commander` above is the raise-free special case, adequate
for `driver_rp2`-style commanders, whose parameter names match the caller's
keywords.) -/

structure CommanderE (σ : Type) where
  read_id : σ → (cs_index : Nat) → (num_bytes : Nat) → Except PyErr (List Nat × σ)
  read_page : σ → (cs_index block page col num_bytes : Nat) →
    Except PyErr (Option (List Nat) × σ)
  read_status : σ → (cs_index : Nat) → Except PyErr (Nat × σ)
  erase_block : σ → (cs_index block : Nat) → Except PyErr (Bool × σ)
  program_page : σ → (cs_index block page : Nat) → (data : List Nat) →
    Except PyErr (Bool × σ)

/-- `driver_sim.NandCommander` as invoked by `nand.py`.  The block manager
calls `read_id(cs_index=...)`, `read_page(cs_index=...)`,
`erase_block(cs_index=..., block=...)` and `program_page(cs_index=...)`
(nand.py lines 234, 249–251, 349, 369, 375–377), but every corresponding
`driver_sim` parameter is named `chip_index` (driver_sim.py lines 114, 120,
134, 146): Python rejects the unexpected keyword argument with a `TypeError`
before the method body runs, leaving the emulator state untouched. -/
def simCmdK : CommanderE SimNand where
  read_id := fun _s _cs _num_bytes => .error .typeError
  read_page := fun _s _cs _block _page _col _num_bytes => .error .typeError
  read_status := fun _s _cs => .error .typeError
  erase_block := fun _s _cs _block => .error .typeError
  program_page := fun _s _cs _block _page _data => .error .typeError

/-! ## `nand.py`: `NandBlockManager`

The persistent fields of the manager (`save`/`load` serialize exactly these
three).  Bitmaps are Python arbitrary-precision ints, one per chip,
LSB = block 0. -/

structure NandBlockManager where
  num_chip : Nat
  badblock_bitmaps : List Nat
  allocated_bitmaps : List Nat
deriving DecidableEq

namespace NandBlockManager

/-- Loop body of `_check_chip_num`: count consecutive chips whose
`read_id` equals `READ_ID_EXPECT`, stopping at the first mismatch.
`acc` is both the running count and the next `cs_index`. -/
def _check_chip_num_go (cmd : Commander σ) (acc : Nat) : Nat → σ → Nat × σ
  | 0, s => (acc, s)
  | n + 1, s =>
    let (idv, s) := cmd.read_id s acc 5
    if idv = NandConfig.READ_ID_EXPECT then _check_chip_num_go cmd (acc + 1) n s
    else (acc, s)

/-- `NandBlockManager._check_chip_num` (default `check_num_chip=2`). -/
def _check_chip_num (cmd : Commander σ) (s : σ) (check_num_chip : Nat := 2) :
    Nat × σ :=
  _check_chip_num_go cmd 0 check_num_chip s

/-- Loop body of `_check_allbadblocks`: scan byte 0 of page 0 of each block;
a read failure aborts with `none`; a byte ≠ `0xFF` sets the block's bit. -/
def _check_allbadblocks_go (cmd : Commander σ) (cs : Nat) :
    Nat → Nat → Nat → σ → Option Nat × σ
  | _block, 0, bitmap, s => (some bitmap, s)
  | block, n + 1, bitmap, s =>
    match cmd.read_page s cs block 0 0 1 with
    | (none, s) => (none, s)
    | (some d, s) =>
      let bitmap := if d.getD 0 0 ≠ 0xFF then bitmap ||| (1 <<< block) else bitmap
      _check_allbadblocks_go cmd cs (block + 1) n bitmap s

/-- `NandBlockManager._check_allbadblocks` (default `num_blocks=BLOCKS_PER_CS`). -/
def _check_allbadblocks (cmd : Commander σ) (s : σ) (cs : Nat)
    (num_blocks : Nat := NandConfig.BLOCKS_PER_CS) : Option Nat × σ :=
  _check_allbadblocks_go cmd cs 0 num_blocks 0 s

/-- Bad-bitmap extension loop of `init`: for each `cs_index < num_chip`
lacking an entry, append `0` then store the scanned bitmap; a scan failure
raises `ValueError("BadBlock Check Error")`. -/
def init_badblocks (cmd : Commander σ) :
    Nat → Nat → List Nat → σ → Except PyErr (List Nat × σ)
  | _cs, 0, bms, s => .ok (bms, s)
  | cs, n + 1, bms, s =>
    if cs < bms.length then init_badblocks cmd (cs + 1) n bms s
    else
      let bms := bms ++ [0]
      match _check_allbadblocks cmd s cs with
      | (none, _s) => .error (.valueError "BadBlock Check Error")
      | (some bm, s) => init_badblocks cmd (cs + 1) n (bms.set cs bm) s

/-- `NandBlockManager.init`, run on the constructor-supplied `num_chip` and
`initial_badblock_bitmaps` (the constructor turns `None`/`[]` into `[]`).
Chip detection when `num_chip == 0`, `ValueError("No Active CS")` when no chip
responds, per-chip bad-block scan, then `allocated_bitmaps` is set to a copy
of `badblock_bitmaps`. -/
def init (cmd : Commander σ) (s : σ) (num_chip0 : Nat) (badblock0 : List Nat) :
    Except PyErr (NandBlockManager × σ) :=
  let (num_chip, s) :=
    if num_chip0 = 0 then _check_chip_num cmd s else (num_chip0, s)
  if num_chip = 0 then .error (.valueError "No Active CS")
  else
    match init_badblocks cmd 0 num_chip badblock0 s with
    | .error e => .error e
    | .ok (bms, s) =>
      let allocated := (List.range num_chip).map fun cs => bms.getD cs 0
      .ok ({ num_chip := num_chip, badblock_bitmaps := bms,
             allocated_bitmaps := allocated }, s)

/-- `NandBlockManager._pick_free`: first `(cs, block)` — chips in increasing
order, blocks in increasing order — whose bit is clear in both bitmaps. -/
def _pick_free (st : NandBlockManager) : Option (Nat × Nat) :=
  (List.range st.num_chip).findSome? fun cs =>
    ((List.range NandConfig.BLOCKS_PER_CS).find? fun block =>
        (st.allocated_bitmaps.getD cs 0 &&& (1 <<< block) == 0) &&
        (st.badblock_bitmaps.getD cs 0 &&& (1 <<< block) == 0)).map
      fun block => (cs, block)

/-- `NandBlockManager._mark_alloc`: `ValueError` if the bit is already set,
else set it. -/
def _mark_alloc (st : NandBlockManager) (cs block : Nat) :
    Except PyErr NandBlockManager :=
  if st.allocated_bitmaps.getD cs 0 &&& (1 <<< block) ≠ 0 then
    .error (.valueError "Block Already Allocated")
  else
    .ok { st with allocated_bitmaps :=
      st.allocated_bitmaps.set cs (st.allocated_bitmaps.getD cs 0 ||| (1 <<< block)) }

/-- `NandBlockManager._mark_free`: `ValueError` if the bit is already clear,
else clear it (`allocated_bitmaps[cs] &= ~(1 << block)`, embedded via
`landNot`).  The bad-block bitmap is not consulted. -/
def _mark_free (st : NandBlockManager) (cs block : Nat) :
    Except PyErr NandBlockManager :=
  if st.allocated_bitmaps.getD cs 0 &&& (1 <<< block) = 0 then
    .error (.valueError "Block Already Free")
  else
    .ok { st with allocated_bitmaps :=
      st.allocated_bitmaps.set cs (landNot (st.allocated_bitmaps.getD cs 0) (1 <<< block)) }

/-- `NandBlockManager._mark_bad`: set the bad bit.  The allocated bitmap is
not touched. -/
def _mark_bad (st : NandBlockManager) (cs block : Nat) : NandBlockManager :=
  { st with badblock_bitmaps :=
    st.badblock_bitmaps.set cs (st.badblock_bitmaps.getD cs 0 ||| (1 <<< block)) }

/-- The `while True` loop of `NandBlockManager.alloc`, with explicit fuel.
Returns the full `(cs, block)` the loop settled on together with the driver
and manager states (the source's `alloc` then returns only `block`). -/
def allocLoop (cmd : Commander σ) :
    Nat → σ → NandBlockManager → Except PyErr (Nat × Nat × σ × NandBlockManager)
  | 0, _s, _st => .error .outOfFuel
  | fuel + 1, s, st =>
    match _pick_free st with
    | none => .error (.valueError "No Free Block")
    | some (cs, block) =>
      let (is_erase_ok, s) := cmd.erase_block s cs block
      if is_erase_ok then
        (_mark_alloc st cs block).map fun st => (cs, block, s, st)
      else
        allocLoop cmd fuel s (_mark_bad st cs block)

/-- `NandBlockManager.alloc`: `return block` — the chip index the scan
settled on is discarded. -/
def alloc (cmd : Commander σ) (fuel : Nat) (s : σ) (st : NandBlockManager) :
    Except PyErr (Nat × σ × NandBlockManager) :=
  (allocLoop cmd fuel s st).map fun r => (r.2.1, r.2.2)

/-- `NandBlockManager.free`. -/
def free (st : NandBlockManager) (cs_index block : Nat) :
    Except PyErr NandBlockManager :=
  _mark_free st cs_index block

/-- `NandBlockManager.read`: passthrough to `nandcmd.read_page`. -/
def read (cmd : Commander σ) (s : σ) (cs_index block page : Nat) :
    Option (List Nat) × σ :=
  cmd.read_page s cs_index block page 0 NandConfig.PAGE_ALL_BYTES

/-- `NandBlockManager.program`: passthrough to `nandcmd.program_page`. -/
def program (cmd : Commander σ) (s : σ) (cs_index block page : Nat)
    (data : List Nat) : Bool × σ :=
  cmd.program_page s cs_index block page data

/-! Exception-aware variants of the manager operations, over a `CommanderE`
whose calls may themselves raise (as `driver_sim`'s do under `nand.py`'s
`cs_index=` keywords): a raised commander error propagates out of the
manager method unchanged. -/

/-- Loop body of `_check_chip_num` over a raising commander. -/
def _check_chip_num_goE (cmd : CommanderE σ) (acc : Nat) :
    Nat → σ → Except PyErr (Nat × σ)
  | 0, s => .ok (acc, s)
  | n + 1, s =>
    match cmd.read_id s acc 5 with
    | .error e => .error e
    | .ok (idv, s) =>
      if idv = NandConfig.READ_ID_EXPECT then _check_chip_num_goE cmd (acc + 1) n s
      else .ok (acc, s)

/-- `NandBlockManager._check_chip_num` over a raising commander. -/
def _check_chip_numE (cmd : CommanderE σ) (s : σ) (check_num_chip : Nat) :
    Except PyErr (Nat × σ) :=
  _check_chip_num_goE cmd 0 check_num_chip s

/-- Loop body of `_check_allbadblocks` over a raising commander. -/
def _check_allbadblocks_goE (cmd : CommanderE σ) (cs : Nat) :
    Nat → Nat → Nat → σ → Except PyErr (Option Nat × σ)
  | _block, 0, bitmap, s => .ok (some bitmap, s)
  | block, n + 1, bitmap, s =>
    match cmd.read_page s cs block 0 0 1 with
    | .error e => .error e
    | .ok (none, s) => .ok (none, s)
    | .ok (some d, s) =>
      let bitmap := if d.getD 0 0 ≠ 0xFF then bitmap ||| (1 <<< block) else bitmap
      _check_allbadblocks_goE cmd cs (block + 1) n bitmap s

/-- `NandBlockManager._check_allbadblocks` over a raising commander. -/
def _check_allbadblocksE (cmd : CommanderE σ) (s : σ) (cs : Nat) :
    Except PyErr (Option Nat × σ) :=
  _check_allbadblocks_goE cmd cs 0 NandConfig.BLOCKS_PER_CS 0 s

/-- Bad-bitmap extension loop of `init` over a raising commander. -/
def init_badblocksE (cmd : CommanderE σ) :
    Nat → Nat → List Nat → σ → Except PyErr (List Nat × σ)
  | _cs, 0, bms, s => .ok (bms, s)
  | cs, n + 1, bms, s =>
    if cs < bms.length then init_badblocksE cmd (cs + 1) n bms s
    else
      let bms := bms ++ [0]
      match _check_allbadblocksE cmd s cs with
      | .error e => .error e
      | .ok (none, _s) => .error (.valueError "BadBlock Check Error")
      | .ok (some bm, s) => init_badblocksE cmd (cs + 1) n (bms.set cs bm) s

/-- `NandBlockManager.init` over a raising commander. -/
def initE (cmd : CommanderE σ) (s : σ) (num_chip0 : Nat) (badblock0 : List Nat) :
    Except PyErr (NandBlockManager × σ) :=
  match (if num_chip0 = 0 then _check_chip_numE cmd s 2 else .ok (num_chip0, s)) with
  | .error e => .error e
  | .ok (num_chip, s) =>
    if num_chip = 0 then .error (.valueError "No Active CS")
    else
      match init_badblocksE cmd 0 num_chip badblock0 s with
      | .error e => .error e
      | .ok (bms, s) =>
        let allocated := (List.range num_chip).map fun cs => bms.getD cs 0
        .ok ({ num_chip := num_chip, badblock_bitmaps := bms,
               allocated_bitmaps := allocated }, s)

/-- The `while True` loop of `alloc` over a raising commander: the
`erase_block` call is the first commander call of each iteration. -/
def allocLoopE (cmd : CommanderE σ) :
    Nat → σ → NandBlockManager → Except PyErr (Nat × Nat × σ × NandBlockManager)
  | 0, _s, _st => .error .outOfFuel
  | fuel + 1, s, st =>
    match _pick_free st with
    | none => .error (.valueError "No Free Block")
    | some (cs, block) =>
      match cmd.erase_block s cs block with
      | .error e => .error e
      | .ok (is_erase_ok, s) =>
        if is_erase_ok then
          (_mark_alloc st cs block).map fun st => (cs, block, s, st)
        else
          allocLoopE cmd fuel s (_mark_bad st cs block)

/-- `NandBlockManager.alloc` over a raising commander (`return block`). -/
def allocE (cmd : CommanderE σ) (fuel : Nat) (s : σ) (st : NandBlockManager) :
    Except PyErr (Nat × σ × NandBlockManager) :=
  (allocLoopE cmd fuel s st).map fun r => (r.2.1, r.2.2)

end NandBlockManager

/-- Fuel that always suffices for `allocLoop`: every iteration that does not
return marks a distinct block bad. -/
def allocFuel : Nat := NandConfig.MAX_CS * NandConfig.BLOCKS_PER_CS + 1

/-! ## `main.py`: `Mapping` and `FlashTranslationLayer`

`src/src/main.py` opens with `from nand import ..., PBA`, and `nand.py`
defines no `PBA`, so in the source this module fails at import on every
platform; on the simulator platform the `FlashTranslationLayer()`
constructor would additionally raise the keyword `TypeError` inside
`NandBlockManager` init (`read_id(cs_index=0)` against `driver_sim`).  The
function bodies below are embedded as written, parameterized over the
commander the FTL's manager holds (`drv` is that commander's state).
`Mapping` (`self.l2p: dict[LBA, PBA]`) is embedded as an association list
where `update` prepends and `resolve` takes the first match — observably the
Python dict update/get. -/

structure FlashTranslationLayer (σ : Type) where
  drv : σ
  blockmng : NandBlockManager
  l2p : List (Nat × Nat)
  write_buffer : List Nat
  write_buffer_lbas : List Nat
  current_write_chip : Option Nat
  current_write_block : Option Nat
  current_write_page : Option Nat
  current_write_sector : Option Nat

namespace FlashTranslationLayer

/-- `self.codec = PageCodec()` (all defaults). -/
def codec : PageCodec := {}

/-- `FlashTranslationLayer.unmap_sector`. -/
def unmap_sector : List Nat := List.replicate NandConfig.SECTOR_BYTES 0x00

/-- `FlashTranslationLayer.read_page`: block-manager read, then codec
decode. -/
def read_page (cmd : Commander σ) (ftl : FlashTranslationLayer σ)
    (cs_index block page : Nat) :
    Option (List Nat) × FlashTranslationLayer σ :=
  match NandBlockManager.read cmd ftl.drv cs_index block page with
  | (none, s) => (none, { ftl with drv := s })
  | (some page_data, s) =>
    match codec.decode page_data with
    | none => (none, { ftl with drv := s })
    | some decode_page_data => (some decode_page_data, { ftl with drv := s })

/-- `FlashTranslationLayer.read_sector`:
`page_data[sector*SECTOR_BYTES : (sector+1)*SECTOR_BYTES]`. -/
def read_sector (cmd : Commander σ) (ftl : FlashTranslationLayer σ)
    (cs_index block page sector : Nat) :
    Option (List Nat) × FlashTranslationLayer σ :=
  match read_page cmd ftl cs_index block page with
  | (none, ftl) => (none, ftl)
  | (some page_data, ftl) =>
    (some ((page_data.drop (sector * NandConfig.SECTOR_BYTES)).take
      NandConfig.SECTOR_BYTES), ftl)

/-- `FlashTranslationLayer.write_page`: codec encode, then block-manager
program.  (`encode` never returns `None`; the source's dead
`if encode_page_data is None` branch is dropped.) -/
def write_page (cmd : Commander σ) (ftl : FlashTranslationLayer σ)
    (cs_index block page : Nat) (data : List Nat) :
    Bool × FlashTranslationLayer σ :=
  let encode_page_data := codec.encode data
  let (result, s) :=
    NandBlockManager.program cmd ftl.drv cs_index block page encode_page_data
  (result, { ftl with drv := s })

/-- `FlashTranslationLayer.read_logical`:
1. an LBA held in the write buffer is served from the buffer at the slot
   `self.write_buffer_lbas.index(lba)` (first occurrence);
2. unmapped LBAs read as the zero sector;
3. otherwise the PBA is decoded and the sector fetched from flash, read
   failure degrading to the zero sector. -/
def read_logical (cmd : Commander σ) (ftl : FlashTranslationLayer σ) (lba : Nat) :
    List Nat × FlashTranslationLayer σ :=
  if ftl.write_buffer_lbas.contains lba then
    let sector_index := ftl.write_buffer_lbas.indexOf lba
    ((ftl.write_buffer.drop (sector_index * NandConfig.SECTOR_BYTES)).take
      NandConfig.SECTOR_BYTES, ftl)
  else
    match ftl.l2p.lookup lba with
    | none => (unmap_sector, ftl)
    | some pba =>
      let (chip, block, page, sector) := NandConfig.decode_phys_addr pba
      match read_sector cmd ftl chip block page sector with
      | (none, ftl) => (unmap_sector, ftl)
      | (some sector_data, ftl) => (sector_data, ftl)

/-- `FlashTranslationLayer.write_logical`.  When any cursor component is
`None` the source runs
`self.current_write_chip, self.current_write_block = self.blockmng.alloc()`;
`alloc` returns a bare `int`, and unpacking a non-iterable `int` into two
targets raises `TypeError` (after `alloc` itself either returned or raised).
With a full cursor: record `L2P[lba]`, splice the sector into the write
buffer, append `lba`; below `SECTOR_PER_PAGE` buffered LBAs advance the
sector, otherwise flush the page and advance (dropping the cursor at the end
of the block). -/
def write_logical (cmd : Commander σ) (ftl : FlashTranslationLayer σ)
    (lba : Nat) (data : List Nat) :
    Except PyErr (Bool × FlashTranslationLayer σ) :=
  match ftl.current_write_chip, ftl.current_write_block,
      ftl.current_write_page, ftl.current_write_sector with
  | some chip, some block, some page, some sector =>
    let pba := NandConfig.encode_phys_addr chip block page sector
    let l2p := (lba, pba) :: ftl.l2p
    let write_buffer :=
      (ftl.write_buffer.take (sector * NandConfig.SECTOR_BYTES)) ++ data ++
        (ftl.write_buffer.drop ((sector + 1) * NandConfig.SECTOR_BYTES))
    let write_buffer_lbas := ftl.write_buffer_lbas ++ [lba]
    if write_buffer_lbas.length < NandConfig.SECTOR_PER_PAGE then
      .ok (true, { ftl with
        l2p := l2p
        write_buffer := write_buffer
        write_buffer_lbas := write_buffer_lbas
        current_write_sector := some (sector + 1) })
    else
      let ftl1 := { ftl with
        l2p := l2p
        write_buffer := write_buffer
        write_buffer_lbas := write_buffer_lbas }
      let (write_result, ftl2) := write_page cmd ftl1 chip block page ftl1.write_buffer
      let ftl3 := { ftl2 with
        write_buffer_lbas := []
        current_write_sector := some 0
        current_write_page := some (page + 1) }
      if page + 1 ≥ NandConfig.PAGES_PER_BLOCK then
        .ok (write_result, { ftl3 with
          current_write_chip := none
          current_write_block := none
          current_write_page := none
          current_write_sector := none })
      else
        .ok (write_result, ftl3)
  | _, _, _, _ =>
    match NandBlockManager.alloc cmd allocFuel ftl.drv ftl.blockmng with
    | .error e => .error e
    | .ok _ => .error .typeError

end FlashTranslationLayer

/-! ## `driver_rp2.py`: pin-level driver

`NandIo` owns the GPIO lines; its state is the driven level of each output
and the externally driven inputs (`io_in` is what the chip drives on IO[7:0]
while the direction is input, `rbb_in` the R/B# level).  `wait_busy` polls
R/B# against a wall-clock deadline; it changes no pin and is embedded by its
outcome, a `ready : Bool` parameter of each command. -/

namespace NandStatus

def PROGRAM_ERASE_FAIL : Nat := 0x01

end NandStatus

namespace DriverRp2

structure Pins where
  io_val : Nat
  io_dir_out : Bool
  ceb0 : Nat
  ceb1 : Nat
  cle : Nat
  ale : Nat
  wpb : Nat
  web : Nat
  reb : Nat
  io_in : Nat
  rbb_in : Nat
deriving DecidableEq

/-- `NandIo.set_io`: drive `value`'s low 8 bits on IO[7:0]. -/
def set_io (s : Pins) (value : Nat) : Pins := { s with io_val := value &&& 0xFF }

/-- `NandIo.get_io`: sample IO[7:0] (chip-driven while direction is input). -/
def get_io (s : Pins) : Nat := if s.io_dir_out then s.io_val else s.io_in

def set_io_dir (s : Pins) (is_output : Bool) : Pins := { s with io_dir_out := is_output }

/-- `NandIo.set_ceb`: assert exactly one CE# low, or deassert both. -/
def set_ceb (s : Pins) (cs_index : Option Nat) : Pins :=
  match cs_index with
  | none => { s with ceb0 := 1, ceb1 := 1 }
  | some i => { s with ceb0 := if i = 0 then 0 else 1,
                       ceb1 := if i = 1 then 0 else 1 }

def set_cle (s : Pins) (value : Nat) : Pins := { s with cle := value }

def set_ale (s : Pins) (value : Nat) : Pins := { s with ale := value }

def set_web (s : Pins) (value : Nat) : Pins := { s with web := value }

def set_wpb (s : Pins) (value : Nat) : Pins := { s with wpb := value }

def set_reb (s : Pins) (value : Nat) : Pins := { s with reb := value }

/-- `NandIo.init_pin`. -/
def init_pin (s : Pins) : Pins :=
  let s := set_io_dir s true
  let s := set_ceb s none
  let s := set_cle s 0
  let s := set_ale s 0
  let s := set_web s 1
  let s := set_reb s 1
  s

/-- `NandIo.input_cmd`: IO := cmd, CLE up, WE# pulse, CLE down. -/
def input_cmd (s : Pins) (cmd : Nat) : Pins :=
  let s := set_io s cmd
  let s := set_cle s 1
  let s := set_web s 0
  let s := set_web s 1
  let s := set_cle s 0
  s

/-- `NandIo.input_addrs`: one ALE/WE# cycle per address byte. -/
def input_addrs (s : Pins) (addrs : List Nat) : Pins :=
  addrs.foldl (fun s addr =>
    let s := set_io s addr
    let s := set_ale s 1
    let s := set_web s 0
    let s := set_web s 1
    let s := set_ale s 0
    s) s

/-- Sampling loop of `NandIo.output_data`: RE# low, sample, RE# high. -/
def output_data_go : Nat → Pins → List Nat → List Nat × Pins
  | 0, s, acc => (acc, s)
  | n + 1, s, acc =>
    let s := set_reb s 0
    let d := get_io s
    let s := set_reb s 1
    output_data_go n s (acc ++ [d])

/-- `NandIo.output_data`: IO to input, sample `num_bytes` bytes, IO back to
output. -/
def output_data (s : Pins) (num_bytes : Nat) : List Nat × Pins :=
  let s := set_io_dir s false
  let (datas, s) := output_data_go num_bytes s []
  (datas, set_io_dir s true)

/-- `NandCommander.read_id`. -/
def read_id (s : Pins) (cs_index : Nat) (num_bytes : Nat) : List Nat × Pins :=
  let s := init_pin s
  let s := set_ceb s (some cs_index)
  let s := input_cmd s NandCmd.READ_ID
  let s := input_addrs s [0]
  let (idv, s) := output_data s num_bytes
  let s := set_ceb s none
  (idv, s)

/-- `NandCommander.read_status`. -/
def read_status (s : Pins) (cs_index : Nat) : Nat × Pins :=
  let s := init_pin s
  let s := set_ceb s (some cs_index)
  let s := input_cmd s NandCmd.STATUS_READ
  let (status, s) := output_data s 1
  let s := set_ceb s none
  (status.getD 0 0, s)

/-- `NandCommander.read_page`.  On `wait_busy` timeout (`ready = false`) the
source returns `None` immediately — without the trailing `set_ceb(None)`. -/
def read_page (ready : Bool) (cs_index block page col num_bytes : Nat)
    (s : Pins) : Option (List Nat) × Pins :=
  let page_addr := NandConfig.create_nand_addr block page col
  let s := init_pin s
  let s := set_ceb s (some cs_index)
  let s := input_cmd s NandCmd.READ_1ST
  let s := input_addrs s page_addr
  let s := input_cmd s NandCmd.READ_2ND
  if ready then
    let (data, s) := output_data s num_bytes
    let s := set_ceb s none
    (some data, s)
  else
    (none, s)

/-- `NandCommander.erase_block`.  On timeout, `return False` without the
`set_ceb(None)`; on success, deassert CE# and check the status byte. -/
def erase_block (ready : Bool) (cs_index block : Nat) (s : Pins) :
    Bool × Pins :=
  let block_addr := NandConfig.create_block_addr block
  let s := init_pin s
  let s := set_ceb s (some cs_index)
  let s := input_cmd s NandCmd.ERASE_1ST
  let s := input_addrs s block_addr
  let s := input_cmd s NandCmd.ERASE_2ND
  if ready then
    let s := set_ceb s none
    let (status, s) := read_status s cs_index
    ((status &&& NandStatus.PROGRAM_ERASE_FAIL) == 0, s)
  else
    (false, s)

/-- Data-input loop of `NandCommander.program_page`: one WE# strobe per
byte. -/
def program_data_go (data : List Nat) (s : Pins) : Pins :=
  data.foldl (fun s b =>
    let s := set_io s b
    let s := set_web s 0
    let s := set_web s 1
    s) s

/-- `NandCommander.program_page`.  On timeout, `return False` without the
`set_ceb(None)`. -/
def program_page (ready : Bool) (cs_index block page : Nat) (data : List Nat)
    (col : Nat) (s : Pins) : Bool × Pins :=
  let page_addr := NandConfig.create_nand_addr block page col
  let s := init_pin s
  let s := set_ceb s (some cs_index)
  let s := input_cmd s NandCmd.PROGRAM_1ST
  let s := input_addrs s page_addr
  let s := program_data_go data s
  let s := input_cmd s NandCmd.PROGRAM_2ND
  if ready then
    let s := set_ceb s none
    let (status, s) := read_status s cs_index
    ((status &&& NandStatus.PROGRAM_ERASE_FAIL) == 0, s)
  else
    (false, s)

end DriverRp2

/-- Idle pin state after `setup_pin` with `keep_wp=False`: IO output-low,
both CE# high, CLE/ALE low, WE#/RE# high, WP# deasserted; the chip holds
R/B# low (busy) — the scenario in which `wait_busy` times out. -/
def pins0 : DriverRp2.Pins :=
  { io_val := 0, io_dir_out := true, ceb0 := 1, ceb1 := 1, cle := 0, ale := 0,
    wpb := 1, web := 1, reb := 1, io_in := 0, rbb_in := 0 }

/-! ## Concrete scenarios used by individual claims -/

/-- A command layer whose BLOCK ERASE of chip 0, block 0 fails (failing
status bit / timeout both surface to the manager only as the returned
`False`); every other erase succeeds.  Used to exercise the erase-failure
demotion path of `alloc`. -/
def failCmd : Commander Unit where
  read_id := fun s _cs num_bytes => (List.replicate num_bytes 0x00, s)
  read_page := fun s _cs _block _page _col _num_bytes => (none, s)
  read_status := fun s _cs => (NandStatus.PROGRAM_ERASE_FAIL, s)
  erase_block := fun s cs block => (!(cs == 0 && block == 0), s)
  program_page := fun s _cs _block _page _data => (false, s)

/-- A command layer with `nand.py`'s keyword convention (as `driver_rp2`,
whose parameters are named `cs_index`) over a healthy chip: `read_id`
answers the expected ID, erase and program succeed, `read_page` returns an
erased page. -/
def okCmd : Commander Unit where
  read_id := fun s _cs _num_bytes => (NandConfig.READ_ID_EXPECT, s)
  read_page := fun s _cs _block _page _col _num_bytes => (some ffPage, s)
  read_status := fun s _cs => (0x00, s)
  erase_block := fun s _cs _block => (true, s)
  program_page := fun s _cs _block _page _data => (true, s)

/-- The in-memory FTL state `__init__` would build over a commander with
matching keywords and one healthy chip: empty L2P, a zeroed
`PAGE_USABLE_BYTES` write buffer, no buffered LBAs, no active write cursor.
(In the source this state is never reached: `src/src/main.py` fails when
imported, on the missing `PBA`, and on the simulator platform the constructor
raises `TypeError` inside the manager's `read_id(cs_index=0)` call — see
the C2 theorem.) -/
def ftl0 : FlashTranslationLayer Unit :=
  { drv := ()
    blockmng := { num_chip := 1, badblock_bitmaps := [0], allocated_bitmaps := [0] }
    l2p := []
    write_buffer := List.replicate NandConfig.PAGE_USABLE_BYTES 0x00
    write_buffer_lbas := []
    current_write_chip := none
    current_write_block := none
    current_write_page := none
    current_write_sector := none }

/-- The `allocated ⊇ bad` invariant of the spec's data model, per chip and
per block. -/
def supersetInv (st : NandBlockManager) : Prop :=
  ∀ cs, cs < st.num_chip → ∀ block, block < NandConfig.BLOCKS_PER_CS →
    (st.badblock_bitmaps.getD cs 0).testBit block →
      (st.allocated_bitmaps.getD cs 0).testBit block

/-! ## Theorems -/

/-! ### Helper lemmas -/

theorem landNot_eq_ldiff (x m : Nat) : landNot x m = Nat.ldiff x m := by
  apply Nat.eq_of_testBit_eq
  intro i
  rw [landNot, Nat.testBit_xor, Nat.testBit_land, Nat.testBit_ldiff]
  cases x.testBit i <;> cases m.testBit i <;> rfl

theorem testBit_landNot (x m i : Nat) :
    (landNot x m).testBit i = (x.testBit i && !(m.testBit i)) := by
  rw [landNot_eq_ldiff, Nat.testBit_ldiff]

/-! ### C1: physical-address round-trip -/

/-- **C1**: refuted.  The claim states
`decode_phys_addr (encode_phys_addr chip block page sector) =
(chip, block, page, sector)` for every in-bounds tuple; already at
`(0, 0, 1, 0)` the round trip yields `(0, 0, 16, 0)`: `encode_phys_addr`
shifts the accumulator by the width of the field just inserted instead of
the width of the field that comes next, so it does not produce the
`chip | block | page | sector` layout that `decode_phys_addr` (correctly)
unpacks. -/
theorem phys_addr_roundtrip_fails_at_page_one :
    NandConfig.decode_phys_addr (NandConfig.encode_phys_addr 0 0 1 0) = (0, 0, 16, 0)
    ∧ ((0, 0, 16, 0) : Nat × Nat × Nat × Nat) ≠ (0, 0, 1, 0) := by
  exact ⟨rfl, by decide⟩

/-! ### C6 / C7 / C10: page codec -/

/-- **C6**: refuted.  With ECC enabled (default flags), flipping a single bit
inside the Hamming-coded region (bit 0 of byte 0 of the codeword of the
all-zero payload) is not corrected: `decode` returns the flipped payload,
because every ECC stage in the source is a `TODO` comment. -/
theorem single_bit_flip_not_corrected :
    PageCodec.decode {} (flipBit (PageCodec.encode {} (List.replicate 2048 0x00)) 0 0)
      = some (1 :: List.replicate 2047 0x00)
    ∧ (1 :: List.replicate 2047 0x00) ≠ List.replicate 2048 0x00 := by
  have h2048 : (2048 : Nat) = 2047 + 1 := rfl
  have henc : PageCodec.encode {} (List.replicate 2048 0x00)
      = 0x00 :: (List.replicate 2047 0x00 ++ List.replicate 128 0x00) := by
    rw [PageCodec.encode, h2048, List.replicate_succ, List.cons_append]
    exact rfl
  have hflip : flipBit (PageCodec.encode {} (List.replicate 2048 0x00)) 0 0
      = 1 :: (List.replicate 2047 0x00 ++ List.replicate 128 0x00) := by
    rw [henc]; rfl
  constructor
  · rw [hflip, PageCodec.decode]
    rw [show NandConfig.PAGE_USABLE_BYTES = 2047 + 1 from rfl, List.take_succ_cons]
    rw [List.take_left' (by rw [List.length_replicate])]
  · intro h
    rw [h2048, List.replicate_succ] at h
    injection h with h1 _
    exact absurd h1 (by decide)

/-- **C7**: for every payload of exactly `PAGE_USABLE_BYTES` bytes and any
flag combination, `decode (encode p) = p`: `encode` appends the zeroed spare
area and `decode` strips it again. -/
theorem codec_roundtrip (c : PageCodec) (data : List Nat)
    (h : data.length = NandConfig.PAGE_USABLE_BYTES) :
    c.decode (c.encode data) = some data := by
  unfold PageCodec.decode PageCodec.encode
  rw [← h, List.take_left]

/-- Witness for `codec_roundtrip` at a concrete 2048-byte payload. -/
theorem codec_roundtrip_witness :
    (List.replicate 2048 0xAB).length = NandConfig.PAGE_USABLE_BYTES
    ∧ PageCodec.decode {} (PageCodec.encode {} (List.replicate 2048 0xAB))
        = some (List.replicate 2048 0xAB) :=
  ⟨by simp [NandConfig.PAGE_USABLE_BYTES],
   codec_roundtrip {} (List.replicate 2048 0xAB)
     (by simp [NandConfig.PAGE_USABLE_BYTES])⟩

/-- **C10**: `decode` is total — on any `PAGE_ALL_BYTES`-byte input with any
flag setting it returns (never `none`) the first `PAGE_USABLE_BYTES` bytes
unchanged, with no CRC check, no syndrome computation and no descrambling. -/
theorem decode_total_prefix (c : PageCodec) (data : List Nat)
    (_h : data.length = NandConfig.PAGE_ALL_BYTES) :
    c.decode data = some (data.take NandConfig.PAGE_USABLE_BYTES)
    ∧ c.decode data ≠ none :=
  ⟨rfl, by rw [PageCodec.decode]; exact fun hc => Option.noConfusion hc⟩

/-- Witness for `decode_total_prefix` at a concrete 2176-byte input. -/
theorem decode_total_prefix_witness :
    (List.replicate 2176 0x5A).length = NandConfig.PAGE_ALL_BYTES
    ∧ (PageCodec.decode {} (List.replicate 2176 0x5A)
        = some ((List.replicate 2176 0x5A).take NandConfig.PAGE_USABLE_BYTES)
      ∧ PageCodec.decode {} (List.replicate 2176 0x5A) ≠ none) :=
  ⟨by simp [NandConfig.PAGE_ALL_BYTES, NandConfig.PAGE_USABLE_BYTES,
      NandConfig.PAGE_SPARE_BYTES],
   decode_total_prefix {} (List.replicate 2176 0x5A)
     (by simp [NandConfig.PAGE_ALL_BYTES, NandConfig.PAGE_USABLE_BYTES,
        NandConfig.PAGE_SPARE_BYTES])⟩

/-! ### C3 / C4 / C8 / C5: block manager -/

/-- **C3**: refuted on the return shape.  `alloc` does scan chips then blocks
and takes the first free-and-good block whose erase succeeds, and it marks
that block allocated before returning — but its final statement is
`return block`: the bare block number, not the `(chip, block)` pair (the
chip index the scan settled on is discarded; the caller
`FlashTranslationLayer.write_logical` unpacks the result into two targets
and hence raises `TypeError`).  Evaluation over `okCmd`, a keyword-matching
(`driver_rp2`-style) command layer whose erase succeeds — over the emulator
`alloc` never returns at all, see the C5 theorem — from a manager state
reachable by `init` without commander calls: the returned value is the
single number `0` and the post state has chip 0, block 0 allocated. -/
theorem alloc_returns_bare_block_number :
    NandBlockManager.init okCmd () 1 [0]
      = .ok ({ num_chip := 1, badblock_bitmaps := [0], allocated_bitmaps := [0] }, ())
    ∧ (NandBlockManager.alloc okCmd allocFuel ()
          { num_chip := 1, badblock_bitmaps := [0], allocated_bitmaps := [0] }).map
        (fun r => (r.1, r.2.2))
      = .ok (0, { num_chip := 1, badblock_bitmaps := [0],
                  allocated_bitmaps := [1] }) := ⟨rfl, rfl⟩

/-- **C4**: refuted.  From the init state with one chip and no factory-bad
block (first conjunct: reachable by `init`), an `alloc` against a command
layer whose erase of chip 0, block 0 fails demotes block 0 to bad and
allocates block 1; `_mark_bad` touches only the bad bitmap, so the result
has `badblock_bitmaps = [1]` but `allocated_bitmaps = [2]`: bad block 0 is
not marked allocated and the `allocated ⊇ bad` superset invariant fails. -/
theorem erase_fail_leaves_bad_block_unallocated :
    NandBlockManager.init failCmd () 1 [0]
      = .ok ({ num_chip := 1, badblock_bitmaps := [0], allocated_bitmaps := [0] }, ())
    ∧ (NandBlockManager.alloc failCmd allocFuel ()
          { num_chip := 1, badblock_bitmaps := [0], allocated_bitmaps := [0] }).map
        (fun r => (r.1, r.2.2))
      = .ok (1, { num_chip := 1, badblock_bitmaps := [1], allocated_bitmaps := [2] })
    ∧ ¬ supersetInv { num_chip := 1, badblock_bitmaps := [1], allocated_bitmaps := [2] } := by
  refine ⟨rfl, rfl, fun hinv => ?_⟩
  exact absurd (hinv 0 (by decide) 0 (by decide) (by decide)) (by decide)

/-- **C8**: counterexample.  After `init` with block 0 of chip 0 factory-bad
(first conjunct: reachable), block 0 is bad and allocated; yet
`free(0, 0)` raises no error — the source checks only the allocated bitmap —
and clears the allocated bit, refuting "raises an error when the block is
marked bad". -/
theorem free_on_bad_block_succeeds :
    NandBlockManager.init simCmd simFresh 1 [1]
      = .ok ({ num_chip := 1, badblock_bitmaps := [1], allocated_bitmaps := [1] },
             simFresh)
    ∧ NandBlockManager.free
        { num_chip := 1, badblock_bitmaps := [1], allocated_bitmaps := [1] } 0 0
      = .ok { num_chip := 1, badblock_bitmaps := [1], allocated_bitmaps := [0] }
    ∧ ∀ e : PyErr, NandBlockManager.free
        { num_chip := 1, badblock_bitmaps := [1], allocated_bitmaps := [1] } 0 0
      ≠ .error e := by
  refine ⟨rfl, rfl, fun e h => ?_⟩
  rw [show NandBlockManager.free
      { num_chip := 1, badblock_bitmaps := [1], allocated_bitmaps := [1] } 0 0
      = .ok { num_chip := 1, badblock_bitmaps := [1], allocated_bitmaps := [0] }
      from rfl] at h
  exact Except.noConfusion h

/-- **C8 (amended)**: `free(chip, block)` raises `ValueError` exactly when
the block is not currently allocated; otherwise — with no bad-block check,
so also for an allocated bad block — it clears exactly that block's bit in
the allocated bitmap (and the statement's `.ok` record shows the bad bitmap
is untouched). -/
theorem free_spec (st : NandBlockManager) (cs block : Nat) :
    (st.allocated_bitmaps.getD cs 0 &&& (1 <<< block) = 0 →
      NandBlockManager.free st cs block = .error (.valueError "Block Already Free"))
    ∧ (st.allocated_bitmaps.getD cs 0 &&& (1 <<< block) ≠ 0 →
      NandBlockManager.free st cs block = .ok { st with
        allocated_bitmaps := st.allocated_bitmaps.set cs
                               (landNot (st.allocated_bitmaps.getD cs 0) (1 <<< block)) }
      ∧ ∀ i, (landNot (st.allocated_bitmaps.getD cs 0) (1 <<< block)).testBit i
          = ((st.allocated_bitmaps.getD cs 0).testBit i && !(block == i))) := by
  constructor
  · intro h
    rw [NandBlockManager.free, NandBlockManager._mark_free, if_pos h]
  · intro h
    refine ⟨by rw [NandBlockManager.free, NandBlockManager._mark_free, if_neg h], ?_⟩
    intro i
    rw [testBit_landNot, Nat.one_shiftLeft]
    by_cases hbi : block = i
    · subst hbi
      simp [Nat.testBit_two_pow_self]
    · simp [Nat.testBit_two_pow_of_ne hbi, Ne.symm hbi]
      exact fun _ => hbi

/-- Witness for `free_spec`: the error branch at a state where block 0 is
free, and the success branch at a state where block 0 is allocated (and
bad). -/
theorem free_spec_witness :
    (NandBlockManager.free
        { num_chip := 1, badblock_bitmaps := [0], allocated_bitmaps := [0] } 0 0
      = .error (.valueError "Block Already Free"))
    ∧ (NandBlockManager.free
          { num_chip := 1, badblock_bitmaps := [1], allocated_bitmaps := [1] } 0 0
        = .ok { num_chip := 1, badblock_bitmaps := [1],
                allocated_bitmaps := [landNot 1 (1 <<< 0)] }
      ∧ ∀ i, (landNot 1 (1 <<< 0)).testBit i = ((1 : Nat).testBit i && !(0 == i))) :=
  ⟨(free_spec { num_chip := 1, badblock_bitmaps := [0], allocated_bitmaps := [0] }
      0 0).1 (by decide),
   (free_spec { num_chip := 1, badblock_bitmaps := [1], allocated_bitmaps := [1] }
      0 0).2 (by decide)⟩

/-- **C5**: refuted — over the emulator, `alloc()` never returns a block at
all.  From a manager state reachable by `init` with constructor-supplied
`num_chip=1, initial_badblock_bitmaps=[0]` (the only init path that makes no
commander call, first conjunct), `alloc` picks `(0, 0)` and immediately calls
`self._nandcmd.erase_block(cs_index=0, block=0)`; `driver_sim`'s parameter
is named `chip_index`, so the call raises `TypeError` and propagates out of
`alloc` — "immediately after alloc() returns a block" never happens, and no
post-alloc read can occur.  (Were the keywords repaired,
`driver_sim.erase_block` still rewrites only page 0, so pages ≥ 1 would keep
their prior contents.) -/
theorem alloc_over_emulator_raises_typeerror :
    NandBlockManager.initE simCmdK simFresh 1 [0]
      = .ok ({ num_chip := 1, badblock_bitmaps := [0], allocated_bitmaps := [0] },
             simFresh)
    ∧ NandBlockManager.allocE simCmdK allocFuel simFresh
        { num_chip := 1, badblock_bitmaps := [0], allocated_bitmaps := [0] }
      = .error .typeError := ⟨rfl, rfl⟩

/-! ### C2: FTL read-after-write -/

/-- **C2**: refuted — no `write_logical(lba, d)` / `read_logical(lba)`
sequence exists in the program, on any pathway:
* (first conjunct) on the simulator platform `FlashTranslationLayer()` never
  finishes construction: with no allocator file, `NandBlockManager.__init__`
  runs `init`, whose chip detection calls `read_id(cs_index=0)` against
  `driver_sim` — parameter named `chip_index` — raising `TypeError` (and
  `src/src/main.py` already fails at import, since it does
  `from nand import PBA` and `nand.py` defines no `PBA`);
* (second conjunct) even from the cursor-less FTL state `__init__` would
  build over a keyword-matching (`driver_rp2`-style) command layer, every
  first `write_logical` runs `self.current_write_chip,
  self.current_write_block = self.blockmng.alloc()`; `alloc` returns a bare
  `int` (block 0, after a successful erase), and unpacking a non-iterable
  `int` into two targets raises `TypeError` — so the claimed subsequent
  `read_logical(lba_i) = d_i` is never reached. -/
theorem first_write_logical_raises_typeerror :
    NandBlockManager.initE simCmdK simFresh 0 [] = .error .typeError
    ∧ ∀ lba data, FlashTranslationLayer.write_logical okCmd ftl0 lba data
        = .error .typeError :=
  ⟨rfl, fun _ _ => rfl⟩

/-! ### C9: chip-enable discipline of the command layer -/

/-- **C9**: refuted.  `read_page` with a `wait_busy` timeout returns `None`
from the idle pin state without running `set_ceb(None)`: the selected
chip's CE# is still asserted (low) on that exit path, so not both
chip-enable lines are deasserted (the same early return exists in
`erase_block` and `program_page`). -/
theorem read_page_timeout_leaves_ce_asserted :
    (DriverRp2.read_page false 0 0 0 0 NandConfig.PAGE_ALL_BYTES pins0).1 = none
    ∧ (DriverRp2.read_page false 0 0 0 0 NandConfig.PAGE_ALL_BYTES pins0).2.ceb0 = 0
    ∧ ¬ ((DriverRp2.read_page false 0 0 0 0 NandConfig.PAGE_ALL_BYTES pins0).2.ceb0 = 1
        ∧ (DriverRp2.read_page false 0 0 0 0 NandConfig.PAGE_ALL_BYTES pins0).2.ceb1 = 1) := by
  refine ⟨rfl, rfl, fun h => ?_⟩
  have h0 := h.1
  rw [show (DriverRp2.read_page false 0 0 0 0 NandConfig.PAGE_ALL_BYTES pins0).2.ceb0 = 0
    from rfl] at h0
  exact absurd h0 (by decide)

end Cauliflower
